import Mathlib

/-!
Verification of the prefect telemetry test harness
(`src/prefect/telemetry/test_util.py`) and of the prefect-dbt CLI root module
(`src/integrations/prefect-dbt/prefect_dbt/_cli/root.py`) as a shallow
embedding.  Stateful Python objects become explicit state passing over a
`World` record; heap-allocated mutable buffers (span exporters, metric
readers, caller-supplied lists) become stores keyed by `Nat` identifiers.
The OpenTelemetry library surface consumed by the harness (the process-wide
global provider registry, the in-memory span exporter, the in-memory metric
reader) and the repository's `InFlightSpanProcessor` are not part of the
excerpt; their operations are modelled from the specification's description
of their contracts and are marked `Modelled from the spec:` below.
-/

namespace Prefect

/-- Association-list lookup with a default value, used for the mutable
stores of the embedding. -/
def lookupD {κ α : Type} [DecidableEq κ] (l : List (κ × α)) (k : κ) (d : α) : α :=
  match l with
  | [] => d
  | kv :: rest => if kv.1 = k then kv.2 else lookupD rest k d

/-- Association-list update: replaces the first binding of the key, or
appends a new binding when the key is absent. -/
def setK {κ α : Type} [DecidableEq κ] (l : List (κ × α)) (k : κ) (v : α) : List (κ × α) :=
  match l with
  | [] => [(k, v)]
  | kv :: rest => if kv.1 = k then (k, v) :: rest else kv :: setK rest k v

/-- A finished span record: the data an in-memory span exporter stores for
one completed span (name, status, attribute mapping, start and end time). -/
structure SpanRecord where
  name : String
  status : String
  attributes : List (String × String)
  startTime : Nat
  endTime : Nat
deriving DecidableEq

/-- Ghost event recording one operation on the process-wide global provider
registry.  A `setTrace b` / `setMetrics b` event records an installation
attempt, with `b` telling whether the slot was already set at that moment
(in which case the underlying API makes the call a silent no-op). -/
inductive RegEvent where
  | resetTrace : RegEvent
  | resetMetrics : RegEvent
  | setTrace : Bool → RegEvent
  | setMetrics : Bool → RegEvent
deriving DecidableEq

/-- Modelled from the spec: the repository's `InFlightSpanProcessor`
(`prefect.telemetry.processors`, not part of the excerpt) wraps a span
exporter and forwards completed spans to it.  In the embedding a processor
is just the identifier of the wrapped exporter buffer. -/
structure InFlightSpanProcessor where
  span_exporter : Nat
deriving DecidableEq

/-- An OpenTelemetry SDK `TracerProvider`: owns the span processors attached
to it.  The provider itself is immutable after setup in this code, so it is
embedded by value. -/
structure TracerProvider where
  processors : List InFlightSpanProcessor
deriving DecidableEq

/-- An OpenTelemetry SDK `MeterProvider`: owns the metric readers (by
identifier into the reader store) it was constructed with. -/
structure MeterProvider where
  metric_readers : List Nat
deriving DecidableEq

/-- The process state the harness manipulates: the two global registry
slots, the store of in-memory span-exporter buffers, the store of in-memory
metric-reader buffers (recorded `(instrument, value)` measurements), a heap
of caller-owned `metric_readers` list objects (for the aliasing behaviour of
`create_meter_provider`), a fresh-identifier counter, and a ghost log of
registry operations. -/
structure World where
  trGlobal : Option TracerProvider
  mtGlobal : Option MeterProvider
  exporters : List (Nat × List SpanRecord)
  readers : List (Nat × List (String × Int))
  heap : List (Nat × List Nat)
  nextId : Nat
  log : List RegEvent

/-- Modelled from the spec: `opentelemetry.test.globals_test.reset_trace_globals`
returns the global tracer slot to the unset state. -/
def reset_trace_globals (w : World) : World :=
  { w with trGlobal := none, log := w.log ++ [RegEvent.resetTrace] }

/-- Modelled from the spec: `opentelemetry.test.globals_test.reset_metrics_globals`
returns the global meter slot to the unset state. -/
def reset_metrics_globals (w : World) : World :=
  { w with mtGlobal := none, log := w.log ++ [RegEvent.resetMetrics] }

/-- Modelled from the spec: `trace_api.set_tracer_provider` installs a
provider into the global tracer slot, but refuses to overwrite an
already-set slot (the call is then a silent no-op). -/
def set_tracer_provider (w : World) (tp : TracerProvider) : World :=
  match w.trGlobal with
  | some _ => { w with log := w.log ++ [RegEvent.setTrace true] }
  | none => { w with trGlobal := some tp, log := w.log ++ [RegEvent.setTrace false] }

/-- Modelled from the spec: `metrics_api.set_meter_provider` installs a
provider into the global meter slot, but refuses to overwrite an
already-set slot (the call is then a silent no-op). -/
def set_meter_provider (w : World) (mp : MeterProvider) : World :=
  match w.mtGlobal with
  | some _ => { w with log := w.log ++ [RegEvent.setMetrics true] }
  | none => { w with mtGlobal := some mp, log := w.log ++ [RegEvent.setMetrics false] }

/-- Modelled from the spec: constructing an `InMemorySpanExporter` allocates
a fresh buffer.  The `residual` argument lets the buffer start with leftover
records, to express the specification's "simulated residual state" scenario
(P2); the clear performed by the harness must erase it. -/
def InMemorySpanExporter_new (w : World) (residual : List SpanRecord) : World × Nat :=
  let eid := w.nextId
  ({ w with nextId := w.nextId + 1, exporters := (eid, residual) :: w.exporters }, eid)

/-- Modelled from the spec: `InMemorySpanExporter.clear` empties the
exporter's buffer. -/
def InMemorySpanExporter_clear (w : World) (eid : Nat) : World :=
  { w with exporters := setK w.exporters eid [] }

/-- Modelled from the spec: constructing an `InMemoryMetricReader` allocates
a fresh, empty measurement buffer. -/
def InMemoryMetricReader_new (w : World) : World × Nat :=
  let rid := w.nextId
  ({ w with nextId := w.nextId + 1, readers := (rid, []) :: w.readers }, rid)

/-- `TracerProvider.add_span_processor` from the OpenTelemetry SDK: attaches
one more span processor to the provider. -/
def TracerProvider.add_span_processor (tp : TracerProvider) (sp : InFlightSpanProcessor) : TracerProvider :=
  ⟨tp.processors ++ [sp]⟩

/-- `create_tracer_provider` from `test_util.py`: builds a `TracerProvider`,
a fresh `InMemorySpanExporter`, wraps the exporter in an
`InFlightSpanProcessor` and attaches the processor to the provider.  The
`residual` argument feeds the exporter-allocation model above. -/
def create_tracer_provider (w : World) (residual : List SpanRecord) : World × TracerProvider × Nat :=
  let tracer_provider : TracerProvider := ⟨[]⟩
  let p := InMemorySpanExporter_new w residual
  let memory_exporter := p.2
  let span_processor : InFlightSpanProcessor := ⟨memory_exporter⟩
  let tracer_provider := tracer_provider.add_span_processor span_processor
  (p.1, tracer_provider, memory_exporter)

/-- `create_meter_provider` from `test_util.py`: builds an
`InMemoryMetricReader`, fetches the caller's `metric_readers` keyword
argument (a heap cell identifier, or `none` when absent, in which case the
default is a fresh empty list), appends the new reader to that very list
object, and constructs the `MeterProvider` with the resulting list. -/
def create_meter_provider (w : World) (kwargs_metric_readers : Option Nat) : World × MeterProvider × Nat :=
  let p := InMemoryMetricReader_new w
  let w := p.1
  let memory_reader := p.2
  match kwargs_metric_readers with
  | some a =>
      let w := { w with heap := setK w.heap a (lookupD w.heap a [] ++ [memory_reader]) }
      let meter_provider : MeterProvider := ⟨lookupD w.heap a []⟩
      (w, meter_provider, memory_reader)
  | none =>
      let metric_readers : List Nat := [] ++ [memory_reader]
      let meter_provider : MeterProvider := ⟨metric_readers⟩
      (w, meter_provider, memory_reader)

/-- The harness object: its four owned references, exactly the attributes of
the Python `InstrumentationTester`. -/
structure InstrumentationTester where
  tracer_provider : TracerProvider
  memory_exporter : Nat
  meter_provider : MeterProvider
  memory_metrics_reader : Nat
deriving DecidableEq

/-- `InstrumentationTester.__init__`: creates the tracer provider and
exporter, resets the global tracer slot, installs the new tracer provider
globally, clears the exporter's buffer, resets the global meter slot,
creates the meter provider and reader, and installs the meter provider
globally — in exactly the source's order. -/
def InstrumentationTester_init (w : World) (residual : List SpanRecord) :
    World × InstrumentationTester :=
  let q := create_tracer_provider w residual
  let tracer_provider := q.2.1
  let memory_exporter := q.2.2
  let w := q.1
  let w := reset_trace_globals w
  let w := set_tracer_provider w tracer_provider
  let w := InMemorySpanExporter_clear w memory_exporter
  let w := reset_metrics_globals w
  let q := create_meter_provider w none
  let meter_provider := q.2.1
  let memory_metrics_reader := q.2.2
  let w := q.1
  let w := set_meter_provider w meter_provider
  (w, ⟨tracer_provider, memory_exporter, meter_provider, memory_metrics_reader⟩)

/-- `InstrumentationTester.reset`: resets the global tracer slot, then the
global meter slot.  Touches nothing else. -/
def InstrumentationTester.reset (_t : InstrumentationTester) (w : World) : World :=
  reset_metrics_globals (reset_trace_globals w)

/-- `InstrumentationTester.get_finished_spans`: reads the harness's
exporter buffer. -/
def InstrumentationTester.get_finished_spans (t : InstrumentationTester) (w : World) :
    List SpanRecord :=
  lookupD w.exporters t.memory_exporter []

/-- Modelled from the spec: emitting a finished span through the
process-wide global tracing API routes it to the globally installed tracer
provider, whose in-flight span processors forward the completed span to
their exporters in order; with no global provider installed the span is
dropped. -/
def emit_span (w : World) (s : SpanRecord) : World :=
  match w.trGlobal with
  | none => w
  | some tp =>
      tp.processors.foldl
        (fun w sp =>
          { w with exporters :=
              (setK w.exporters sp.span_exporter
                (lookupD w.exporters sp.span_exporter [] ++ [s])) }) w

/-- Emitting a sequence of spans through the global tracing API, in order. -/
def emit_spans (w : World) (ss : List SpanRecord) : World :=
  match ss with
  | [] => w
  | s :: rest => emit_spans (emit_span w s) rest

/-- Modelled from the spec: a counter instrument created through a meter
provider records each `add` as an `(instrument, value)` measurement in every
metric reader the provider owns. -/
def counter_add (w : World) (mp : MeterProvider) (instrument : String) (v : Int) : World :=
  mp.metric_readers.foldl
    (fun w rid =>
      { w with readers :=
          (setK w.readers rid (lookupD w.readers rid [] ++ [(instrument, v)])) }) w

/-- Modelled from the spec: pulling a snapshot from an in-memory metric
reader yields, for a counter instrument, the aggregated sum of all recorded
measurements of that instrument. -/
def reader_sum (w : World) (rid : Nat) (instrument : String) : Int :=
  (((lookupD w.readers rid []).filter (fun p => p.1 == instrument)).map
    (fun p => p.2)).sum

/-- The registry part of the process state: the two global slots. -/
def registryState (w : World) : Option TracerProvider × Option MeterProvider :=
  (w.trGlobal, w.mtGlobal)

/-- The static environment of the prefect-dbt CLI: the version strings and
platform facts the two version surfaces read. -/
structure CliEnv where
  prefect_version : String
  prefect_dbt_version : String
  python_version : String
  os_arch : String
  profile_name : String
  pydantic_version : Option String
deriving DecidableEq

/-- `version_callback` from `root.py`: when the `--version` flag value is
true, prints `prefect.__version__` and raises `typer.Exit` (so no subcommand
runs).  Result: the printed lines and whether the process exited early. -/
def version_callback (env : CliEnv) (value : Bool) : List String × Bool :=
  if value then ([env.prefect_version], true) else ([], false)

/-- The `version` subcommand from `root.py`: the ordered key/value report it
builds and displays, with `prefect_dbt.__version__` under "Version" and the
pydantic fallback string when the package is absent. -/
def version_info (env : CliEnv) : List (String × String) :=
  [("Version", env.prefect_dbt_version),
   ("Prefect version", env.prefect_version),
   ("Python version", env.python_version),
   ("OS/Arch", env.os_arch),
   ("Profile", env.profile_name),
   ("Pydantic version",
     match env.pydantic_version with
     | some v => v
     | none => "Not installed")]

/-- A process state with nothing allocated, used to instantiate witnesses. -/
def w0 : World :=
  ⟨none, none, [], [], [], 0, []⟩

/-- A concrete span, matching the spec's scenario. -/
def taskRunSpan : SpanRecord :=
  ⟨"task-run", "OK", [("task_id", "abc123")], 0, 1⟩

/-- A second concrete span with a distinct name, for round-trip witnesses. -/
def flowRunSpan : SpanRecord :=
  ⟨"flow-run", "OK", [("flow_id", "def456")], 1, 2⟩

/-- A concrete CLI environment for witnesses. -/
def cliEnv0 : CliEnv :=
  ⟨"3.1.5", "0.6.4", "3.12.0", "linux/x86_64", "ephemeral", some ("2.9.2")⟩

/-! Helper lemmas about the stores and the harness construction. -/

/-- Looking up a key right after setting it yields the new value. -/
theorem lookupD_setK_self {κ α : Type} [DecidableEq κ] (l : List (κ × α)) (k : κ) (v d : α) :
    lookupD (setK l k v) k d = v := by
  induction l with
  | nil => simp [setK, lookupD]
  | cons kv rest ih =>
      by_cases hk : kv.1 = k
      · simp [setK, lookupD, hk]
      · simp [setK, lookupD, hk, ih]

/-- Normal form of the harness constructor: the resulting process state and
harness object, for an arbitrary starting state. -/
theorem init_eq (w : World) (residual : List SpanRecord) :
    InstrumentationTester_init w residual =
      ({ trGlobal := some ⟨[⟨w.nextId⟩]⟩,
         mtGlobal := some ⟨[w.nextId + 1]⟩,
         exporters := (w.nextId, []) :: w.exporters,
         readers := (w.nextId + 1, []) :: w.readers,
         heap := w.heap,
         nextId := w.nextId + 1 + 1,
         log := w.log ++ [RegEvent.resetTrace, RegEvent.setTrace false,
                          RegEvent.resetMetrics, RegEvent.setMetrics false] },
       ⟨⟨[⟨w.nextId⟩]⟩, w.nextId, ⟨[w.nextId + 1]⟩, w.nextId + 1⟩) := by
  simp [InstrumentationTester_init, create_tracer_provider, InMemorySpanExporter_new,
        TracerProvider.add_span_processor, reset_trace_globals, set_tracer_provider,
        InMemorySpanExporter_clear, reset_metrics_globals, create_meter_provider,
        InMemoryMetricReader_new, set_meter_provider, setK]

/-- One emission through the global API, when the installed provider has a
single in-flight processor writing to exporter `e`: it appends the span to
that exporter's buffer and changes nothing else. -/
theorem emit_span_of_single (w : World) (e : Nat) (s : SpanRecord)
    (h : w.trGlobal = some ⟨[⟨e⟩]⟩) :
    emit_span w s =
      { w with exporters := setK w.exporters e (lookupD w.exporters e [] ++ [s]) } := by
  unfold emit_span
  rw [h]
  simp [h]

/-- Emitting a list of spans when the installed provider has a single
in-flight processor writing to exporter `e`: the global slot is preserved
and the exporter's buffer grows by exactly that list, in order. -/
theorem emit_spans_spec (ss : List SpanRecord) (w : World) (e : Nat)
    (h : w.trGlobal = some ⟨[⟨e⟩]⟩) :
    (emit_spans w ss).trGlobal = some ⟨[⟨e⟩]⟩ ∧
      lookupD (emit_spans w ss).exporters e [] = lookupD w.exporters e [] ++ ss := by
  induction ss generalizing w with
  | nil => simpa [emit_spans] using h
  | cons s rest ih =>
      have hstep := emit_span_of_single w e s h
      have h1 : (emit_span w s).trGlobal = some ⟨[⟨e⟩]⟩ := by
        rw [hstep]; exact h
      have h2 : lookupD (emit_span w s).exporters e [] = lookupD w.exporters e [] ++ [s] := by
        rw [hstep]; exact lookupD_setK_self _ _ _ _
      have hrec := ih (emit_span w s) h1
      refine ⟨hrec.1, ?_⟩
      rw [show emit_spans w (s :: rest) = emit_spans (emit_span w s) rest from rfl,
          hrec.2, h2, List.append_assoc]
      rfl

/-! The claims. -/

/-- C1: after constructing an `InstrumentationTester`, emitting exactly one
span through the process-wide global tracing API and then calling
`get_finished_spans` returns exactly one record equal to the emitted span
(so its name and attributes match), and — since the construction starts
from an arbitrary prior process state `w`, including states holding earlier
providers and exporter contents — no span emitted outside the harness's
lifetime appears in the result. -/
theorem C1_span_isolation (w : World) (residual : List SpanRecord) (s : SpanRecord) :
    InstrumentationTester.get_finished_spans (InstrumentationTester_init w residual).2
      (emit_span (InstrumentationTester_init w residual).1 s) = [s] := by
  rw [init_eq]
  simp [emit_span, InstrumentationTester.get_finished_spans, lookupD, setK]

/-- C2: for every sequence `ss` of emitted spans with pairwise-distinct
names and `ss.length ≤ 100`, `get_finished_spans` returns exactly
`ss.length` records, in emission order (the result is `ss` itself), and
each emitted name appears exactly once among the returned records. -/
theorem C2_round_trip (w : World) (residual ss : List SpanRecord)
    (hlen : ss.length ≤ 100)
    (hnames : (ss.map SpanRecord.name).Nodup) :
    InstrumentationTester.get_finished_spans (InstrumentationTester_init w residual).2
        (emit_spans (InstrumentationTester_init w residual).1 ss) = ss ∧
    (InstrumentationTester.get_finished_spans (InstrumentationTester_init w residual).2
        (emit_spans (InstrumentationTester_init w residual).1 ss)).length = ss.length ∧
    ∀ s ∈ ss,
      ((InstrumentationTester.get_finished_spans (InstrumentationTester_init w residual).2
          (emit_spans (InstrumentationTester_init w residual).1 ss)).map
        SpanRecord.name).count s.name = 1 := by
  have hmain :
      InstrumentationTester.get_finished_spans (InstrumentationTester_init w residual).2
        (emit_spans (InstrumentationTester_init w residual).1 ss) = ss := by
    have htr : (InstrumentationTester_init w residual).1.trGlobal =
        some ⟨[⟨w.nextId⟩]⟩ := by rw [init_eq]
    have h := emit_spans_spec ss (InstrumentationTester_init w residual).1 w.nextId htr
    have hm : (InstrumentationTester_init w residual).2.memory_exporter = w.nextId := by
      rw [init_eq]
    have he : lookupD (InstrumentationTester_init w residual).1.exporters w.nextId [] = [] := by
      rw [init_eq]
      simp [lookupD]
    simp only [InstrumentationTester.get_finished_spans]
    rw [hm, h.2, he]
    rfl
  refine ⟨hmain, by rw [hmain], ?_⟩
  intro s hs
  rw [hmain]
  exact List.count_eq_one_of_mem hnames (List.mem_map_of_mem SpanRecord.name hs)

/-- C2 witness: the round-trip theorem applied to two concrete spans with
distinct names, starting from the empty process state. -/
theorem C2_round_trip_witness :
    ([taskRunSpan, flowRunSpan].length ≤ 100 ∧
      ([taskRunSpan, flowRunSpan].map SpanRecord.name).Nodup) ∧
    InstrumentationTester.get_finished_spans (InstrumentationTester_init w0 []).2
        (emit_spans (InstrumentationTester_init w0 []).1 [taskRunSpan, flowRunSpan]) =
      [taskRunSpan, flowRunSpan] :=
  ⟨⟨by decide, by decide⟩,
    (C2_round_trip w0 [] [taskRunSpan, flowRunSpan] (by decide) (by decide)).1⟩

/-- C3: during `InstrumentationTester.__init__`, the registry operations
happen in exactly the order: reset the global tracer slot, install the new
tracer provider, reset the global meter slot, install the new meter
provider — so each reset strictly precedes the corresponding installation,
and both `setTrace`/`setMetrics` events carry the flag `false`, i.e. no
installation is ever performed on an already-set global slot. -/
theorem C3_reset_before_set (w : World) (residual : List SpanRecord) :
    (InstrumentationTester_init w residual).1.log =
      w.log ++ [RegEvent.resetTrace, RegEvent.setTrace false,
                RegEvent.resetMetrics, RegEvent.setMetrics false] := by
  rw [init_eq]

/-- C4: immediately after constructing an `InstrumentationTester` — before
any new span is emitted — `get_finished_spans` returns the empty sequence,
even when the exporter is allocated holding arbitrary leftover `residual`
records (the constructor clears the buffer). -/
theorem C4_clear_on_construct (w : World) (residual : List SpanRecord) :
    InstrumentationTester.get_finished_spans (InstrumentationTester_init w residual).2
      (InstrumentationTester_init w residual).1 = [] := by
  rw [init_eq]
  simp [InstrumentationTester.get_finished_spans, lookupD]

/-- C5: `reset` is a total operation (calling it twice in a row never
fails), and the global provider registry — both the tracer slot and the
meter slot — is in the same unset state after two consecutive calls as
after a single call. -/
theorem C5_reset_idempotent (t : InstrumentationTester) (w : World) :
    registryState (t.reset (t.reset w)) = registryState (t.reset w) ∧
    registryState (t.reset w) = (none, none) := by
  simp [InstrumentationTester.reset, reset_trace_globals, reset_metrics_globals,
        registryState]

/-- C6: `reset` clears exactly the two process-wide global registry slots;
every piece of harness-owned state is unchanged — in particular the span
exporters' buffers, so `get_finished_spans` returns the same sequence
immediately before and immediately after the call. -/
theorem C6_reset_frame (t : InstrumentationTester) (w : World) :
    (t.reset w).trGlobal = none ∧ (t.reset w).mtGlobal = none ∧
    (t.reset w).exporters = w.exporters ∧ (t.reset w).readers = w.readers ∧
    (t.reset w).heap = w.heap ∧ (t.reset w).nextId = w.nextId ∧
    t.get_finished_spans (t.reset w) = t.get_finished_spans w := by
  simp [InstrumentationTester.reset, reset_trace_globals, reset_metrics_globals,
        InstrumentationTester.get_finished_spans]

/-- C7: after constructing an `InstrumentationTester`, creating a counter
instrument through the harness's meter provider, incrementing it by 1, 2
and 3, and pulling the harness's in-memory metric reader yields an
aggregated sum of exactly 6 for that instrument's data point. -/
theorem C7_counter_sum (w : World) (residual : List SpanRecord) :
    reader_sum
      (counter_add
        (counter_add
          (counter_add ((InstrumentationTester_init w residual).1)
            ((InstrumentationTester_init w residual).2.meter_provider) "task-runs" 1)
          ((InstrumentationTester_init w residual).2.meter_provider) "task-runs" 2)
        ((InstrumentationTester_init w residual).2.meter_provider) "task-runs" 3)
      ((InstrumentationTester_init w residual).2.memory_metrics_reader) "task-runs" = 6 := by
  rw [init_eq]
  simp [counter_add, reader_sum, lookupD, setK]

/-- C8: `get_finished_spans` has no error conditions: it is a total
function returning an ordered sequence of `SpanRecord`s (each exposing
name, status, attributes and start/end timestamps); after emitting any
sequence of spans it returns exactly that sequence in order, and it
returns the empty sequence when no spans have been captured. -/
theorem C8_no_error (w : World) (residual ss : List SpanRecord) :
    InstrumentationTester.get_finished_spans (InstrumentationTester_init w residual).2
        (emit_spans (InstrumentationTester_init w residual).1 ss) = ss ∧
    InstrumentationTester.get_finished_spans (InstrumentationTester_init w residual).2
      (InstrumentationTester_init w residual).1 = [] := by
  constructor
  · have htr : (InstrumentationTester_init w residual).1.trGlobal =
        some ⟨[⟨w.nextId⟩]⟩ := by rw [init_eq]
    have h := emit_spans_spec ss (InstrumentationTester_init w residual).1 w.nextId htr
    have hm : (InstrumentationTester_init w residual).2.memory_exporter = w.nextId := by
      rw [init_eq]
    have he : lookupD (InstrumentationTester_init w residual).1.exporters w.nextId [] = [] := by
      rw [init_eq]
      simp [lookupD]
    simp only [InstrumentationTester.get_finished_spans]
    rw [hm, h.2, he]
    rfl
  · rw [init_eq]
    simp [InstrumentationTester.get_finished_spans, lookupD]

/-- C9: when `create_meter_provider` receives a caller-supplied
`metric_readers` list (a heap cell `a`), it appends the new in-memory
reader to that very list object in place, and constructs the meter
provider with the caller's readers plus the in-memory reader; with no
`metric_readers` argument, the meter provider is constructed with exactly
the one in-memory reader and the heap is untouched. -/
theorem C9_kwargs_aliasing (w : World) (a : Nat) :
    lookupD (create_meter_provider w (some a)).1.heap a [] =
        lookupD w.heap a [] ++ [(create_meter_provider w (some a)).2.2] ∧
    (create_meter_provider w (some a)).2.1.metric_readers =
        lookupD w.heap a [] ++ [(create_meter_provider w (some a)).2.2] ∧
    (create_meter_provider w none).2.1.metric_readers =
        [(create_meter_provider w none).2.2] ∧
    (create_meter_provider w none).1.heap = w.heap := by
  refine ⟨?_, ?_, ?_, ?_⟩ <;>
    simp [create_meter_provider, InMemoryMetricReader_new, lookupD_setK_self]

/-- C10: in the prefect-dbt CLI, a true `--version`/`-v` flag makes
`version_callback` print the core prefect library's version string — not
the prefect-dbt package's own version — and exit before any subcommand
runs; whereas the `version` subcommand reports `prefect_dbt.__version__` in
its "Version" field alongside the prefect version. -/
theorem C10_version_surfaces (env : CliEnv)
    (hne : env.prefect_dbt_version ≠ env.prefect_version) :
    version_callback env true = ([env.prefect_version], true) ∧
    (version_callback env true).1 ≠ [env.prefect_dbt_version] ∧
    version_callback env false = ([], false) ∧
    lookupD (version_info env) "Version" "" = env.prefect_dbt_version ∧
    lookupD (version_info env) "Prefect version" "" = env.prefect_version := by
  refine ⟨rfl, ?_, rfl, ?_, ?_⟩
  · simp [version_callback]
    exact fun hcontra => hne hcontra.symm
  · simp [version_info, lookupD]
  · simp [version_info, lookupD]

/-- C10 witness: the CLI theorem applied to a concrete environment whose
two version strings differ. -/
theorem C10_version_surfaces_witness :
    cliEnv0.prefect_dbt_version ≠ cliEnv0.prefect_version ∧
    version_callback cliEnv0 true = ([cliEnv0.prefect_version], true) :=
  ⟨by decide, (C10_version_surfaces cliEnv0 (by decide)).1⟩

end Prefect
